import Mathlib

set_option maxRecDepth 100000

/-!
Verification of the channel liveness / heartbeat core of `src/channel.py`
(TwitchDropsMiner).  The Python classes `Stream` and `Channel` are embedded
shallowly: the mutable object state becomes a Lean structure, each method
becomes a pure function returning the updated state (together with the list
of GUI / event hooks it fired), and the network collaborators (`gql_request`,
`request`) become explicit parameters carrying the response the collaborator
would have produced.
-/

namespace TDM

/-- The hooks a `Channel` method can fire on its collaborators:
`display` is `self.display()` (GUI refresh), `on_online` is
`self._twitch.on_online(self)`, `on_offline` is `self._twitch.on_offline(self)`. -/
inductive Hook where
  | display
  | on_online
  | on_offline
deriving DecidableEq, Repr

/-- The `data["stream"]` sub-object of a GetStreamInfo response
(fields read by `Stream.from_get_stream`). -/
structure StreamInfo where
  id : Int
  viewersCount : Int
  tags : List String
deriving DecidableEq, Repr

/-- The `data["broadcastSettings"]` sub-object of a GetStreamInfo response. -/
structure BroadcastSettings where
  game : Option String
  title : String
deriving DecidableEq, Repr

/-- The `response["data"]["user"]` object of a GetStreamInfo response:
`id`, `displayName`, the (possibly null) `stream` object and the
`broadcastSettings` object. -/
structure UserData where
  id : Int
  displayName : String
  stream : Option StreamInfo
  broadcastSettings : BroadcastSettings
deriving DecidableEq, Repr

/-- A GetStreamInfo GQL response as consumed by `Channel.get_stream`:
`none` models a falsy `response`, `some none` a falsy `response["data"]["user"]`,
and `some (some u)` a response with a non-null user object `u`. -/
def GqlResponse : Type := Option (Option UserData)

/-- The Python `Stream` value object (fields set by `Stream.__init__`).
`DROPS_ENABLED_TAG` is kept abstract as a fixed string constant. -/
structure Stream where
  broadcast_id : Int
  viewers : Int
  drops_enabled : Bool
  game : Option String
  title : String
deriving DecidableEq, Repr

/-- The drops-enabled tag sentinel (`constants.DROPS_ENABLED_TAG`),
an opaque identifier whose exact value is irrelevant to the claims. -/
def DROPS_ENABLED_TAG : String := "c2542d6d-cd10-4532-919b-3d19f30a768b"

/-- `Stream.__init__`: `drops_enabled` is true iff any tag id equals the
sentinel; `broadcast_id := int(id)`. -/
def Stream.make (id : Int) (game : Option String) (viewers : Int) (title : String)
    (tags : List String) : Stream :=
  { broadcast_id := id
    viewers := viewers
    drops_enabled := tags.any (fun t => t == DROPS_ENABLED_TAG)
    game := game
    title := title }

/-- `Stream.from_get_stream`: builds the stream from the `stream` and
`broadcastSettings` sub-objects. -/
def Stream.from_get_stream (u : UserData) (si : StreamInfo) : Stream :=
  Stream.make si.id u.broadcastSettings.game si.viewersCount
    u.broadcastSettings.title si.tags

/-- The memoized heartbeat payload (`Channel._payload`, a `cached_property`):
a record whose single `data` field holds the base64-encoded JSON event. -/
structure Payload where
  data : String
deriving DecidableEq, Repr

/-- The mutable state of a Python `Channel` object.  `pending_stream_up`
records whether `_pending_stream_up` holds a live task handle (`true`) or is
`None` (`false`); `payload_cache` is the `cached_property` memo slot for
`_payload` (`none` = not computed / invalidated); `user_id` stands for
`self._twitch._user_id` of the owning client. -/
structure Channel where
  id : Int
  login : String
  display_name : Option String
  spade_url : Option String
  points : Option Int
  stream : Option Stream
  pending_stream_up : Bool
  payload_cache : Option Payload
  priority : Bool
  user_id : Int
deriving DecidableEq, Repr

namespace Channel

/-- `Channel.__init__` (no stream, no pending task, empty caches). -/
def init (twitch_user_id : Int) (id : Int) (login : String)
    (display_name : Option String) (priority : Bool) : Channel :=
  { id := id
    login := login
    display_name := display_name
    spade_url := none
    points := none
    stream := none
    pending_stream_up := false
    payload_cache := none
    priority := priority
    user_id := twitch_user_id }

/-- `Channel.online`: `self._stream is not None`. -/
def online (ch : Channel) : Bool := ch.stream.isSome

/-- `Channel.offline`: `self._stream is None and self._pending_stream_up is None`. -/
def offline (ch : Channel) : Bool := ch.stream.isNone && !ch.pending_stream_up

/-- `Channel.pending_online`: `self._pending_stream_up is not None`. -/
def pending_online (ch : Channel) : Bool := ch.pending_stream_up

/-- `Channel.get_stream`: consumes a GetStreamInfo response.  On a falsy
response or a falsy `data.user` it returns no stream and leaves the channel
untouched; otherwise it backfills `id` and `_display_name` from the user
object, and returns a `Stream` only when the `stream` field is non-null. -/
def get_stream (ch : Channel) (resp : GqlResponse) : Channel × Option Stream :=
  match resp with
  | none => (ch, none)
  | some none => (ch, none)
  | some (some u) =>
    let ch' := { ch with id := u.id, display_name := some u.displayName }
    match u.stream with
    | none => (ch', none)
    | some si => (ch', some (Stream.from_get_stream u si))

/-- `Channel.check_online`: `self._stream = stream = await self.get_stream()`;
when the lookup yields no stream the `_payload` cache is invalidated and
`False` is returned, otherwise `True`. -/
def check_online (ch : Channel) (resp : GqlResponse) : Channel × Bool :=
  let (ch1, st) := ch.get_stream resp
  let ch2 := { ch1 with stream := st }
  match st with
  | none => ({ ch2 with payload_cache := none }, false)
  | some _ => (ch2, true)

/-- The body of `Channel._online_delay` after the sleep: runs `check_online`,
clears the pending-task handle, fires `display`, and fires `on_online` iff
the channel came up online. -/
def online_delay (ch : Channel) (resp : GqlResponse) : Channel × List Hook :=
  let (ch1, onl) := ch.check_online resp
  let ch2 := { ch1 with pending_stream_up := false }
  (ch2, Hook.display :: (if onl then [Hook.on_online] else []))

/-- `Channel.set_online` (signalGoingLive): only from OFFLINE does it start
the delayed-confirmation task (modelled as setting the handle) and fire
`display`; otherwise nothing happens. -/
def set_online (ch : Channel) : Channel × List Hook :=
  if ch.offline then ({ ch with pending_stream_up := true }, [Hook.display])
  else (ch, [])

/-- `Channel.set_offline` (signalGoingOffline): cancels a pending task if
present (firing `display`), then, if online, clears the stream, invalidates
the payload cache, fires `display` and `on_offline`. -/
def set_offline (ch : Channel) : Channel × List Hook :=
  let (ch1, h1) :=
    if ch.pending_stream_up then
      ({ ch with pending_stream_up := false }, [Hook.display])
    else (ch, ([] : List Hook))
  let (ch2, h2) :=
    if ch1.online then
      ({ ch1 with stream := none, payload_cache := none },
        [Hook.display, Hook.on_offline])
    else (ch1, ([] : List Hook))
  (ch2, h1 ++ h2)

end Channel

/-! ### Decimal integer representation (Python `repr` of an `int`, as used by
`json.dumps` for numbers). -/

/-- Accumulates the decimal digits of `n` (most significant first) in front
of `acc`; structural recursion on a fuel bound (`fuel ≥ n` suffices, since
the value shrinks by a factor of ten each step). -/
def natDigitsAux : Nat → Nat → List Char → List Char
  | 0, n, acc => Char.ofNat (48 + n % 10) :: acc
  | fuel + 1, n, acc =>
    let c := Char.ofNat (48 + n % 10)
    if n < 10 then c :: acc
    else natDigitsAux fuel (n / 10) (c :: acc)

/-- Decimal representation of a natural number. -/
def natRepr (n : Nat) : String := String.mk (natDigitsAux n n [])

/-- Decimal representation of an integer, as Python `json.dumps` serializes
an `int`. -/
def intRepr (i : Int) : String :=
  if i < 0 then "-" ++ natRepr i.natAbs else natRepr i.natAbs

/-! ### JSON values and `json.dumps(..., separators=(",", ":"))`.
The payload strings and keys are plain ASCII without quotes or backslashes,
so the serializer needs no escaping for the values this development feeds it
(Python would escape; no payload value triggers escaping). -/

/-- A JSON value (only the constructors the heartbeat payload uses). -/
inductive Json where
  | str : String → Json
  | int : Int → Json
  | arr : List Json → Json
  | obj : List (String × Json) → Json

mutual

/-- Compact JSON serialization: `json.dumps(v, separators=(",", ":"))`. -/
def serializeJson : Json → String
  | .str s => "\"" ++ s ++ "\""
  | .int i => intRepr i
  | .arr xs => "[" ++ serializeList xs ++ "]"
  | .obj kvs => "\x7b" ++ serializeObj kvs ++ "\x7d"

/-- Array elements joined by the item separator `","`. -/
def serializeList : List Json → String
  | [] => ""
  | [x] => serializeJson x
  | x :: y :: xs => serializeJson x ++ "," ++ serializeList (y :: xs)

/-- Object entries `"key":value` joined by `","`. -/
def serializeObj : List (String × Json) → String
  | [] => ""
  | [(k, v)] => "\"" ++ k ++ "\":" ++ serializeJson v
  | (k, v) :: e :: kvs =>
    "\"" ++ k ++ "\":" ++ serializeJson v ++ "," ++ serializeObj (e :: kvs)

end

/-! ### Base64 (`base64.b64encode` over the UTF-8 bytes of the JSON string;
every character of the payload JSON is ASCII, so its UTF-8 encoding is the
list of character code points). -/

/-- UTF-8 bytes of an ASCII string (code point = byte for ASCII). -/
def asciiBytes (s : String) : List Nat := s.data.map Char.toNat

/-- The base64 alphabet. -/
def b64Table : String :=
  "ABCDEFGHIJKLMNOPQRSTUVWXYZabcdefghijklmnopqrstuvwxyz0123456789+/"

/-- The character encoding a 6-bit group. -/
def sextetChar (n : Nat) : Char := b64Table.data.getD n 'A'

/-- The 6-bit group a base64 character stands for. -/
def sextetIndex (c : Char) : Option Nat := b64Table.data.findIdx? (fun d => d == c)

/-- `base64.b64encode`: 3 input bytes become 4 alphabet characters; a final
group of 2 or 1 bytes is padded with `=`. -/
def b64encode : List Nat → List Char
  | b0 :: b1 :: b2 :: rest =>
    sextetChar (b0 / 4) :: sextetChar (b0 % 4 * 16 + b1 / 16) ::
      sextetChar (b1 % 16 * 4 + b2 / 64) :: sextetChar (b2 % 64) :: b64encode rest
  | [b0, b1] =>
    [sextetChar (b0 / 4), sextetChar (b0 % 4 * 16 + b1 / 16), sextetChar (b1 % 16 * 4), '=']
  | [b0] => [sextetChar (b0 / 4), sextetChar (b0 % 4 * 16), '=', '=']
  | [] => []

/-- Base64 decoding: inverts `b64encode` chunk by chunk, rejecting malformed
input. -/
def b64decode : List Char → Option (List Nat)
  | [] => some []
  | c0 :: c1 :: c2 :: c3 :: rest =>
    (sextetIndex c0).bind fun s0 =>
    (sextetIndex c1).bind fun s1 =>
    if c2 = '=' then
      if c3 = '=' ∧ rest = [] then some [s0 * 4 + s1 / 16] else none
    else
      (sextetIndex c2).bind fun s2 =>
      if c3 = '=' then
        if rest = [] then some [s0 * 4 + s1 / 16, s1 % 16 * 16 + s2 / 4] else none
      else
        (sextetIndex c3).bind fun s3 =>
        (b64decode rest).map fun tl =>
          (s0 * 4 + s1 / 16) :: (s1 % 16 * 16 + s2 / 4) :: (s2 % 4 * 64 + s3) :: tl
  | _ => none

/-! ### The heartbeat payload (`Channel._payload`). -/

/-- The JSON event list built by `Channel._payload`: a single-element list
holding one event record. -/
def payloadJson (channel_id broadcast_id user_id : Int) : Json :=
  Json.arr [Json.obj [
    ("event", Json.str "minute-watched"),
    ("properties", Json.obj [
      ("channel_id", Json.int channel_id),
      ("broadcast_id", Json.int broadcast_id),
      ("player", Json.str "site"),
      ("user_id", Json.int user_id)])]]

/-- The body of `Channel._payload` given the ids: serialize compactly,
UTF-8-encode, base64-encode, wrap as a record with a `data` field. -/
def mkPayload (channel_id broadcast_id user_id : Int) : Payload :=
  { data := String.mk (b64encode (asciiBytes
      (serializeJson (payloadJson channel_id broadcast_id user_id)))) }

namespace Channel

/-- `Channel._payload` uncached: asserts the stream is present (modelled by
`none` on assertion failure), then builds the payload from the channel id,
the current stream's broadcast id and the authenticated user's id. -/
def _payload (ch : Channel) : Option Payload :=
  ch.stream.map fun s => mkPayload ch.id s.broadcast_id ch.user_id

/-- Access to the `cached_property`: returns the memo if present, otherwise
computes and stores it.  `none` models the assertion failure when there is no
current stream. -/
def payload_access (ch : Channel) : Option (Channel × Payload) :=
  match ch.payload_cache with
  | some p => some (ch, p)
  | none =>
    match ch._payload with
    | some p => some ({ ch with payload_cache := some p }, p)
    | none => none

end Channel

/-! ### The spade-URL resolver (`Channel.get_spade_url`).
The two `re.search` calls are embedded as explicit matchers.  `re.I` makes
literal letters match case-insensitively (modelled by comparing lowered
characters); the `\w` class is modelled as ASCII letters, digits and
underscore (the URLs being matched are ASCII). -/

/-- `constants.BASE_URL` (module not under `src/`; its exact value is
irrelevant to every claim, only that `Channel.url` is built from it). -/
def BASE_URL : String := "https://www.twitch.tv"

/-- `Channel.url`: the channel's public page address. -/
def Channel.url (ch : Channel) : String := BASE_URL ++ "/" ++ ch.login

/-- Case-insensitive literal match of `pat` against a prefix of `s`;
returns the consumed input text and the rest. -/
def matchLiteralCI : List Char → List Char → Option (List Char × List Char)
  | [], s => some ([], s)
  | _ :: _, [] => none
  | p :: ps, c :: cs =>
    if p.toLower == c.toLower then
      (matchLiteralCI ps cs).map fun (tk, rem) => (c :: tk, rem)
    else none

/-- Exactly `n` characters of the class `cls`; returns the consumed text and
the rest. -/
def matchCount (cls : Char → Bool) : Nat → List Char → Option (List Char × List Char)
  | 0, s => some ([], s)
  | _ + 1, [] => none
  | n + 1, c :: cs =>
    if cls c then (matchCount cls n cs).map fun (tk, rem) => (c :: tk, rem)
    else none

/-- Greedy `cls+` followed by the case-insensitive literal `suffix`, with
backtracking: prefer the longest class run that still lets `suffix` match.
Returns (class run, consumed suffix text, rest). -/
def plusThenCI (cls : Char → Bool) (suffix : List Char) :
    List Char → Option (List Char × List Char × List Char)
  | [] => none
  | c :: cs =>
    if cls c then
      match plusThenCI cls suffix cs with
      | some (tk, sf, rem) => some (c :: tk, sf, rem)
      | none =>
        match matchLiteralCI suffix cs with
        | some (sf, rem) => some ([c], sf, rem)
        | none => none
    else none

/-- `re.search`: try the anchored matcher at every position, leftmost first. -/
def searchAux {α : Type} (f : List Char → Option α) : List Char → Option α
  | [] => f []
  | c :: cs =>
    match f (c :: cs) with
    | some r => some r
    | none => searchAux f cs

/-- `[0-9a-f]` under `re.I`: also matches `A`–`F`. -/
def hexDigitCI (c : Char) : Bool :=
  c.isDigit || ('a' ≤ c && c ≤ 'f') || ('A' ≤ c && c ≤ 'F')

/-- The regex character class of dot, `\w`, dash and slash (with `\w`
modelled as ASCII word chars). -/
def spadeClassChar (c : Char) : Bool :=
  c == '.' || c == '-' || c == '/' || c.isAlphanum || c == '_'

/-- The step-1 pattern anchored at a position:
`src="(https://static\.twitchcdn\.net/config/settings\.[0-9a-f]{32}\.js)"`,
returning group 1 (the input text inside the parentheses). -/
def settingsAt (s : List Char) : Option String :=
  (matchLiteralCI "src=\"".data s).bind fun (_, r1) =>
  (matchLiteralCI "https://static.twitchcdn.net/config/settings.".data r1).bind fun (g1, r2) =>
  (matchCount hexDigitCI 32 r2).bind fun (g2, r3) =>
  (matchLiteralCI ".js".data r3).bind fun (g3, r4) =>
  (matchLiteralCI "\"".data r4).map fun _ =>
  String.mk (g1 ++ g2 ++ g3)

/-- The step-2 pattern anchored at a position: the literal `"spade_url":`,
an optional space, then a quoted group `https://video-edge-` followed by one
or more characters of `spadeClassChar` and the literal `.ts`; returns
group 1. -/
def spadeAt (s : List Char) : Option String :=
  (matchLiteralCI "\"spade_url\":".data s).bind fun (_, r1) =>
  let r1' := match r1 with
    | ' ' :: t => t
    | _ => r1
  (matchLiteralCI "\"".data r1').bind fun (_, r2) =>
  (matchLiteralCI "https://video-edge-".data r2).bind fun (g1, r3) =>
  (plusThenCI spadeClassChar ".ts\"".data r3).map fun (tk, sf, _) =>
  String.mk (g1 ++ tk ++ sf.dropLast)

/-- The first step-1 match in the streamer page, if any. -/
def find_settings_url (page : String) : Option String := searchAux settingsAt page.data

/-- The first step-2 match in the settings script, if any. -/
def find_spade_url (js : String) : Option String := searchAux spadeAt js.data

/-- `MinerException("Error while spade_url extraction: step #n")`. -/
inductive MinerError where
  | extraction : Nat → MinerError
deriving DecidableEq, Repr

/-- `Channel.get_spade_url`: fetch the page (given), match step 1, fetch the
settings script (via `fetch`), match step 2. -/
def get_spade_url (page : String) (fetch : String → String) : Except MinerError String :=
  match find_settings_url page with
  | none => Except.error (MinerError.extraction 1)
  | some u =>
    match find_spade_url (fetch u) with
    | none => Except.error (MinerError.extraction 2)
    | some v => Except.ok v

/-! ### The heartbeat sender (`Channel.send_watch`). -/

/-- A call made on the transport collaborator (`self._twitch.request`). -/
inductive TransportCall where
  | get : String → TransportCall
  | post : String → Payload → TransportCall
deriving DecidableEq, Repr

/-- `Channel.send_watch`: `page` is what GET on the channel page would
return, `fetch` what GET on the settings script would return, and
`postResult` the outcome of the heartbeat POST (`Except.error` models an
`aiohttp` error, i.e. a `RequestException`; `Except.ok s` a response with
status `s`).  Returns the `send_watch` result (`Except.error` propagating a
`MinerException` from spade resolution), the updated channel, and the
transport calls made. -/
def Channel.send_watch (ch : Channel) (page : String) (fetch : String → String)
    (postResult : Except Unit Nat) :
    Except MinerError Bool × Channel × List TransportCall :=
  if ch.online then
    let resolved : Except MinerError String × Channel × List TransportCall :=
      match ch.spade_url with
      | some u => (Except.ok u, ch, [])
      | none =>
        match find_settings_url page with
        | none => (Except.error (MinerError.extraction 1), ch, [TransportCall.get ch.url])
        | some su =>
          match find_spade_url (fetch su) with
          | none =>
            (Except.error (MinerError.extraction 2), ch,
              [TransportCall.get ch.url, TransportCall.get su])
          | some v =>
            (Except.ok v, { ch with spade_url := some v },
              [TransportCall.get ch.url, TransportCall.get su])
    match resolved with
    | (Except.error e, ch1, gets) => (Except.error e, ch1, gets)
    | (Except.ok u, ch1, gets) =>
      match ch1.stream with
      | none => (Except.ok false, ch1, gets)
      | some s =>
        let p := ch1.payload_cache.getD (mkPayload ch1.id s.broadcast_id ch1.user_id)
        let ch2 := { ch1 with payload_cache := some p }
        match postResult with
        | Except.error _ => (Except.ok false, ch2, gets ++ [TransportCall.post u p])
        | Except.ok status => (Except.ok (status == 204), ch2, gets ++ [TransportCall.post u p])
  else (Except.ok false, ch, [])

/-! ### Reachable channel states.
`Reach true` closes the initial states under every public operation;
`Reach false` additionally requires `check_online` to be invoked only while
no delayed confirmation is pending. -/

/-- States reachable from construction by the public operations
(`set_online`, `set_offline`, `check_online`, the delayed-confirmation
completion, a payload access, a spade-URL resolution by `send_watch`).
With `unrestricted := false`, `check_online` steps are only allowed while no
pending task exists. -/
inductive Reach (unrestricted : Bool) : Channel → Prop where
  | init : ∀ uid id login dn prio, Reach unrestricted (Channel.init uid id login dn prio)
  | from_directory : ∀ uid id login dn s,
      Reach unrestricted { Channel.init uid id login dn false with stream := some s }
  | set_online : ∀ ch, Reach unrestricted ch → Reach unrestricted ch.set_online.1
  | set_offline : ∀ ch, Reach unrestricted ch → Reach unrestricted ch.set_offline.1
  | check_online : ∀ ch resp, Reach unrestricted ch →
      (unrestricted = true ∨ ch.pending_stream_up = false) →
      Reach unrestricted (ch.check_online resp).1
  | online_delay : ∀ ch resp, Reach unrestricted ch →
      Reach unrestricted (ch.online_delay resp).1
  | payload : ∀ ch ch' p, Reach unrestricted ch →
      ch.payload_access = some (ch', p) → Reach unrestricted ch'
  | spade : ∀ ch u, Reach unrestricted ch →
      Reach unrestricted { ch with spade_url := some u }

/-! ### Concrete fixtures used by witnesses and counterexamples. -/

/-- A GetStreamInfo user object whose stream has broadcast id 100. -/
def userA : UserData :=
  { id := 1
    displayName := "Chan"
    stream := some { id := 100, viewersCount := 5, tags := [] }
    broadcastSettings := { game := none, title := "t" } }

/-- A GetStreamInfo user object whose stream has broadcast id 200. -/
def userB : UserData :=
  { id := 1
    displayName := "Chan"
    stream := some { id := 200, viewersCount := 5, tags := [] }
    broadcastSettings := { game := none, title := "t" } }

/-- A freshly constructed (OFFLINE) channel. -/
def chanFresh : Channel := Channel.init 7 1 "chan" none false

/-- An ONLINE channel (stream held, no pending task). -/
def chanOnline : Channel := { chanFresh with stream := some (Stream.make 100 none 5 "t" []) }

/-! ### Theorems. -/

/-- `C10`: every live-lookup whose response carries a non-null user object
overwrites the channel's `id` and `displayName` from that response — and
changes nothing else — regardless of whether the `stream` field is null. -/
theorem get_stream_backfills (ch : Channel) (u : UserData) :
    (ch.get_stream (some (some u))).1 =
      { ch with id := u.id, display_name := some u.displayName } := by
  cases hs : u.stream <;> simp [Channel.get_stream, hs]

/-- `C7`: `set_online` called when the channel is not OFFLINE is a complete
no-op: the state is returned unchanged and no hook fires; from OFFLINE it
sets the pending-task handle and fires the display hook. -/
theorem set_online_noop_unless_offline (ch : Channel) :
    (ch.offline = false → ch.set_online = (ch, [])) ∧
    (ch.offline = true →
      ch.set_online = ({ ch with pending_stream_up := true }, [Hook.display])) := by
  constructor <;> intro h <;> simp [Channel.set_online, h]

/-- Witness for `C7` at an ONLINE channel. -/
theorem set_online_noop_unless_offline_witness :
    chanOnline.set_online = (chanOnline, []) :=
  (set_online_noop_unless_offline chanOnline).1 (by decide)

/-- `C8`: `set_offline` is idempotent — after one call the channel is
OFFLINE with no stream and no pending task, so a second call returns the
state unchanged and fires no hook. -/
theorem set_offline_idempotent (ch : Channel) :
    (ch.set_offline.1).set_offline = (ch.set_offline.1, []) := by
  cases hp : ch.pending_stream_up <;> rcases hs : ch.stream with _ | s <;>
    simp [Channel.set_offline, Channel.online, hp, hs]

/-- `C9`: the became-offline hook fires iff `set_offline` clears an actual
stream; cancelling a pending confirmation fires only the display hook; a
delayed-confirmation completion whose lookup yields no stream fires only the
display hook (neither became-online nor became-offline). -/
theorem offline_hook_only_on_stream_clear (ch : Channel) (resp : GqlResponse) :
    ((Hook.on_offline ∈ ch.set_offline.2) ↔ ch.online = true) ∧
    (ch.pending_online = true → ch.online = false →
      ch.set_offline.2 = [Hook.display]) ∧
    ((ch.get_stream resp).2 = none → (ch.online_delay resp).2 = [Hook.display]) := by
  refine ⟨?_, ?_, ?_⟩
  · cases hp : ch.pending_stream_up <;> rcases hs : ch.stream with _ | s <;>
      simp [Channel.set_offline, Channel.online, hp, hs]
  · intro h1 h2
    cases hp : ch.pending_stream_up <;> rcases hs : ch.stream with _ | s <;>
      simp_all [Channel.set_offline, Channel.online, Channel.pending_online, hp, hs]
  · intro h
    rcases hg : ch.get_stream resp with ⟨ch1, st⟩
    rw [hg] at h
    simp at h
    subst h
    simp [Channel.online_delay, Channel.check_online, hg]

/-- Witness for `C9` at a PENDING_ONLINE channel with an offline lookup. -/
theorem offline_hook_only_on_stream_clear_witness :
    (Hook.on_offline ∈
        ({ chanFresh with pending_stream_up := true } : Channel).set_offline.2 ↔
      ({ chanFresh with pending_stream_up := true } : Channel).online = true) ∧
    ({ chanFresh with pending_stream_up := true } : Channel).set_offline.2 =
      [Hook.display] ∧
    (({ chanFresh with pending_stream_up := true } : Channel).online_delay none).2 =
      [Hook.display] := by
  have h := offline_hook_only_on_stream_clear
    { chanFresh with pending_stream_up := true } none
  exact ⟨h.1, h.2.1 (by decide) (by decide), h.2.2 (by decide)⟩

/-- `C5`: `send_watch` on a channel that is not ONLINE returns `False`
immediately: no transport call is made and the channel state is unchanged. -/
theorem send_watch_offline_no_transport (ch : Channel) (page : String)
    (fetch : String → String) (postRes : Except Unit Nat)
    (h : ch.online = false) :
    ch.send_watch page fetch postRes = (Except.ok false, ch, []) := by
  simp [Channel.send_watch, h]

/-- Witness for `C5` at a freshly constructed channel. -/
theorem send_watch_offline_no_transport_witness :
    chanFresh.send_watch "" (fun _ => "") (Except.ok 204) =
      (Except.ok false, chanFresh, []) :=
  send_watch_offline_no_transport chanFresh "" (fun _ => "") (Except.ok 204) (by decide)

/-- `C6`: spade-URL resolution fails with the step-1 extraction error exactly
when the page lacks a settings-script match, fails with the step-2 error
exactly when the fetched settings script lacks a spade-url match, and
returns the matched spade URL when both patterns match. -/
theorem get_spade_url_error_steps (page : String) (fetch : String → String) :
    (get_spade_url page fetch = Except.error (MinerError.extraction 1) ↔
      find_settings_url page = none) ∧
    (get_spade_url page fetch = Except.error (MinerError.extraction 2) ↔
      ∃ su, find_settings_url page = some su ∧ find_spade_url (fetch su) = none) ∧
    (∀ v, get_spade_url page fetch = Except.ok v ↔
      ∃ su, find_settings_url page = some su ∧ find_spade_url (fetch su) = some v) := by
  rcases h1 : find_settings_url page with _ | su
  · simp [get_spade_url, h1]
  · rcases h2 : find_spade_url (fetch su) with _ | v <;>
      simp [get_spade_url, h1, h2]

/-- `C4`: once the channel is ONLINE and the spade URL is available (cached
or freshly resolved), `send_watch` never propagates a POST failure: a
transport error yields `False`, a completed POST yields `True` exactly when
its status is 204. -/
theorem send_watch_post_policy (ch : Channel) (page : String)
    (fetch : String → String) (postRes : Except Unit Nat) (u : String)
    (hon : ch.online = true)
    (hres : ch.spade_url = some u ∨
      (ch.spade_url = none ∧ get_spade_url page fetch = Except.ok u)) :
    (ch.send_watch page fetch postRes).1 =
      Except.ok (match postRes with
        | Except.ok s => s == 204
        | Except.error _ => false) := by
  obtain ⟨s, hs⟩ : ∃ s, ch.stream = some s := by
    have := hon
    simp [Channel.online, Option.isSome_iff_exists] at this
    exact this
  rcases hres with h | ⟨h1, h2⟩
  · rcases postRes with e | st <;> simp [Channel.send_watch, hon, h, hs]
  · rcases hfs : find_settings_url page with _ | su
    · simp [get_spade_url, hfs] at h2
    · rcases hsp : find_spade_url (fetch su) with _ | v
      · simp [get_spade_url, hfs, hsp] at h2
      · rcases postRes with e | st <;>
          simp [Channel.send_watch, hon, h1, hfs, hsp, hs]

/-- Witness for `C4`: an ONLINE channel with a cached spade URL, POSTing with
status 204 (accepted) — `send_watch` reports `True`. -/
theorem send_watch_post_policy_witness :
    (({ chanOnline with spade_url := some "u" } : Channel).send_watch ""
        (fun _ => "") (Except.ok 204)).1 = Except.ok true := by
  have h := send_watch_post_policy { chanOnline with spade_url := some "u" } ""
    (fun _ => "") (Except.ok 204) "u" (by decide) (Or.inl rfl)
  simpa using h

/-! ### Frame lemmas for the reachability inductions. -/

theorem get_stream_pending (ch : Channel) (resp : GqlResponse) :
    (ch.get_stream resp).1.pending_stream_up = ch.pending_stream_up := by
  rcases resp with _ | u
  · rfl
  rcases u with _ | u
  · rfl
  cases hs : u.stream <;> simp [Channel.get_stream, hs]

theorem get_stream_stream (ch : Channel) (resp : GqlResponse) :
    (ch.get_stream resp).1.stream = ch.stream := by
  rcases resp with _ | u
  · rfl
  rcases u with _ | u
  · rfl
  cases hs : u.stream <;> simp [Channel.get_stream, hs]

theorem get_stream_cache (ch : Channel) (resp : GqlResponse) :
    (ch.get_stream resp).1.payload_cache = ch.payload_cache := by
  rcases resp with _ | u
  · rfl
  rcases u with _ | u
  · rfl
  cases hs : u.stream <;> simp [Channel.get_stream, hs]

theorem get_stream_user_id (ch : Channel) (resp : GqlResponse) :
    (ch.get_stream resp).1.user_id = ch.user_id := by
  rcases resp with _ | u
  · rfl
  rcases u with _ | u
  · rfl
  cases hs : u.stream <;> simp [Channel.get_stream, hs]

theorem payload_access_cases (ch ch' : Channel) (p : Payload)
    (h : ch.payload_access = some (ch', p)) :
    ch' = ch ∨ (ch' = { ch with payload_cache := some p } ∧ ch._payload = some p) := by
  rcases hc : ch.payload_cache with _ | q
  · rcases hp : ch._payload with _ | r
    · simp [Channel.payload_access, hc, hp] at h
    · simp only [Channel.payload_access, hc, hp, Option.some.injEq, Prod.mk.injEq] at h
      obtain ⟨h1, h2⟩ := h
      subst h1
      subst h2
      exact Or.inr ⟨rfl, rfl⟩
  · simp only [Channel.payload_access, hc, Option.some.injEq, Prod.mk.injEq] at h
    obtain ⟨h1, h2⟩ := h
    subst h1
    exact Or.inl rfl

/-- In every state reachable without invoking `check_online` while a pending
task exists, the channel never holds both a stream and a pending task. -/
theorem reach_stream_pending (ch : Channel) (h : Reach false ch) :
    ch.stream = none ∨ ch.pending_stream_up = false := by
  induction h with
  | init uid id login dn prio => exact Or.inl rfl
  | from_directory uid id login dn s => exact Or.inr rfl
  | set_online ch hr ih =>
    by_cases ho : ch.offline = true
    · left
      have hs : ch.stream = none := by
        simp [Channel.offline, Option.isNone_iff_eq_none] at ho
        exact ho.1
      simp [Channel.set_online, ho, hs]
    · simp only [Channel.set_online, ho, if_false, Bool.not_eq_true] at *
      simpa [ho] using ih
  | set_offline ch hr ih =>
    right
    cases hp : ch.pending_stream_up <;> rcases hs : ch.stream with _ | s <;>
      simp [Channel.set_offline, Channel.online, hp, hs]
  | check_online ch resp hr hg ih =>
    right
    have hp : ch.pending_stream_up = false := by
      rcases hg with hg | hg
      · exact absurd hg (by decide)
      · exact hg
    have hframe := get_stream_pending ch resp
    rcases hgs : ch.get_stream resp with ⟨ch1, st⟩
    rw [hgs] at hframe
    simp only [] at hframe
    cases st <;> simp [Channel.check_online, hgs, hframe, hp]
  | online_delay ch resp hr ih =>
    right
    rcases hc : ch.check_online resp with ⟨ch1, onl⟩
    simp [Channel.online_delay, hc]
  | payload ch ch' p hr hpa ih =>
    rcases payload_access_cases ch ch' p hpa with rfl | ⟨rfl, hp2⟩
    · exact ih
    · simpa using ih
  | spade ch u hr ih => simpa using ih

/-- In every reachable state (even with unrestricted `check_online`), a
channel holding no stream holds no memoized payload either. -/
theorem reach_cache_empty (ch : Channel) (h : Reach true ch) :
    ch.stream = none → ch.payload_cache = none := by
  induction h with
  | init uid id login dn prio => intro _; rfl
  | from_directory uid id login dn s => intro _; rfl
  | set_online ch hr ih =>
    by_cases ho : ch.offline = true <;> simp [Channel.set_online, ho] <;> exact ih
  | set_offline ch hr ih =>
    cases hp : ch.pending_stream_up <;> rcases hs : ch.stream with _ | s <;>
      simp [Channel.set_offline, Channel.online, hp, hs] <;> exact ih hs
  | check_online ch resp hr hg ih =>
    have hcache := get_stream_cache ch resp
    have hstream := get_stream_stream ch resp
    rcases hgs : ch.get_stream resp with ⟨ch1, st⟩
    rw [hgs] at hcache hstream
    cases st <;> simp [Channel.check_online, hgs]
  | online_delay ch resp hr ih =>
    have hcache := get_stream_cache ch resp
    have hstream := get_stream_stream ch resp
    rcases hgs : ch.get_stream resp with ⟨ch1, st⟩
    rw [hgs] at hcache hstream
    cases st <;>
      simp [Channel.online_delay, Channel.check_online, hgs]
  | payload ch ch' p hr hpa ih =>
    rcases payload_access_cases ch ch' p hpa with rfl | ⟨rfl, hp2⟩
    · exact ih
    · intro hs
      simp at hs
      rw [Channel._payload, hs] at hp2
      simp at hp2
  | spade ch u hr ih => simpa using ih

/-- `C1` counterexample: the claim admits `check_online` among the public
operations, but calling it while PENDING_ONLINE with a live lookup result
reaches a state that is both ONLINE (stream held) and PENDING_ONLINE
(pending task still set): `check_online` never clears the pending handle. -/
theorem channel_status_counterexample :
    Reach true (chanFresh.set_online.1.check_online (some (some userA))).1 ∧
    (chanFresh.set_online.1.check_online (some (some userA))).1.online = true ∧
    (chanFresh.set_online.1.check_online (some (some userA))).1.pending_online = true := by
  refine ⟨?_, by decide, by decide⟩
  exact Reach.check_online _ _
    (Reach.set_online _ (Reach.init 7 1 "chan" none false)) (Or.inl rfl)

/-- `C1` (amended): in every state reachable by `set_online`, `set_offline`,
the delayed-confirmation completion, payload accesses and spade resolution —
with `check_online` invoked only while no confirmation is pending — the
three status queries are mutually exclusive and exactly one is true. -/
theorem channel_status_exclusive (ch : Channel) (h : Reach false ch) :
    (ch.online || ch.offline || ch.pending_online) = true ∧
    (ch.online && ch.offline) = false ∧
    (ch.online && ch.pending_online) = false ∧
    (ch.offline && ch.pending_online) = false := by
  rcases reach_stream_pending ch h with hs | hp
  · cases hpp : ch.pending_stream_up <;>
      simp [Channel.online, Channel.offline, Channel.pending_online, hs, hpp]
  · rcases hss : ch.stream with _ | s <;>
      simp [Channel.online, Channel.offline, Channel.pending_online, hss, hp]

/-- Witness for `C1` at a freshly constructed channel. -/
theorem channel_status_exclusive_witness :
    (chanFresh.online || chanFresh.offline || chanFresh.pending_online) = true ∧
    (chanFresh.online && chanFresh.offline) = false ∧
    (chanFresh.online && chanFresh.pending_online) = false ∧
    (chanFresh.offline && chanFresh.pending_online) = false :=
  channel_status_exclusive chanFresh (Reach.init 7 1 "chan" none false)

/-- The stale-cache state: go online with broadcast 100, compute the payload
(filling the memo), then let `check_online` adopt a different stream with
broadcast 200. -/
def chanStale : Channel :=
  (({ (chanFresh.check_online (some (some userA))).1 with
      payload_cache := some (mkPayload 1 100 7) } : Channel).check_online
    (some (some userB))).1

/-- `C2` counterexample: `check_online` adopting a new stream while a stream
is already held does not drop the memoized payload — the reachable state
`chanStale` holds the broadcast-200 stream yet still caches the payload
built for broadcast 100 (a genuinely different payload). -/
theorem payload_cache_stale_counterexample :
    Reach true chanStale ∧
    chanStale.stream = some (Stream.make 200 none 5 "t" []) ∧
    chanStale.payload_cache = some (mkPayload 1 100 7) ∧
    mkPayload 1 100 7 ≠ mkPayload 1 200 7 := by
  refine ⟨?_, by decide, by decide, by decide⟩
  have h0 : Reach true chanFresh := Reach.init 7 1 "chan" none false
  have h1 := Reach.check_online chanFresh (some (some userA)) h0 (Or.inl rfl)
  have h2 := Reach.payload (chanFresh.check_online (some (some userA))).1
    ({ (chanFresh.check_online (some (some userA))).1 with
      payload_cache := some (mkPayload 1 100 7) })
    (mkPayload 1 100 7) h1 (by decide)
  exact Reach.check_online _ (some (some userB)) h2 (Or.inl rfl)

/-- `C2` (amended): the payload memo is dropped whenever the current stream
is cleared — by `set_offline` and by any lookup adoption of "no stream" —
and in every reachable state with no current stream the memo is already
empty, so an adoption from a streamless state recomputes the payload from
the newly adopted stream's broadcast id.  (Adoption while a stream is
already held does not drop the memo; see the counterexample.) -/
theorem payload_cache_invalidation (ch : Channel) (h : Reach true ch) :
    (ch.stream = none → ch.payload_cache = none) ∧
    ch.set_offline.1.payload_cache = none ∧
    (∀ resp, (ch.check_online resp).1.stream = none →
      (ch.check_online resp).1.payload_cache = none) ∧
    (∀ resp s, ch.stream = none → (ch.check_online resp).1.stream = some s →
      ∃ chA, (ch.check_online resp).1.payload_access =
        some (chA, mkPayload (ch.check_online resp).1.id s.broadcast_id ch.user_id)) := by
  refine ⟨reach_cache_empty ch h, ?_, ?_, ?_⟩
  · cases hp : ch.pending_stream_up <;> rcases hs : ch.stream with _ | s <;>
      simp [Channel.set_offline, Channel.online, hp, hs] <;>
      exact reach_cache_empty ch h hs
  · intro resp
    have hframe := get_stream_stream ch resp
    rcases hgs : ch.get_stream resp with ⟨ch1, st⟩
    cases st <;> simp [Channel.check_online, hgs]
  · intro resp s hsn hst
    have hcache := get_stream_cache ch resp
    have hid := get_stream_user_id ch resp
    rcases hgs : ch.get_stream resp with ⟨ch1, st⟩
    rw [hgs] at hcache hid
    simp only [] at hcache hid
    have hc0 : ch.payload_cache = none := reach_cache_empty ch h hsn
    rw [Channel.check_online, hgs] at hst ⊢
    cases st with
    | none => simp at hst
    | some s0 =>
      simp only [] at hst ⊢
      have hs0 : s0 = s := by simpa using hst
      subst hs0
      simp [Channel.payload_access, Channel._payload, hcache, hc0, hid]

/-- Witness for `C2` at the ONLINE-with-empty-memo state reached by a
single `check_online` adoption from a fresh channel. -/
theorem payload_cache_invalidation_witness :
    ((chanFresh.check_online (some (some userA))).1.stream = none →
      (chanFresh.check_online (some (some userA))).1.payload_cache = none) ∧
    (chanFresh.check_online (some (some userA))).1.set_offline.1.payload_cache = none := by
  have h := payload_cache_invalidation (chanFresh.check_online (some (some userA))).1
    (Reach.check_online chanFresh (some (some userA))
      (Reach.init 7 1 "chan" none false) (Or.inl rfl))
  exact ⟨h.1, h.2.1⟩

/-! ### ASCII bounds for the serialized payload, and the base64 roundtrip. -/

/-- Every character of the string is ASCII (code point below 128). -/
def allAscii (s : String) : Bool := s.data.all fun c => decide (c.toNat < 128)

theorem allAscii_append (a b : String) (ha : allAscii a = true)
    (hb : allAscii b = true) : allAscii (a ++ b) = true := by
  unfold allAscii at *
  rw [String.data_append, List.all_append, ha, hb]
  rfl

theorem mem_lt_of_allAscii (s : String) (h : allAscii s = true) :
    ∀ c ∈ s.data, c.toNat < 128 := by
  intro c hc
  unfold allAscii at h
  have := List.all_eq_true.mp h c hc
  simpa using this

theorem digitChar_ascii (n : Nat) : (Char.ofNat (48 + n % 10)).toNat < 128 := by
  have hall : ∀ m : Fin 10, (Char.ofNat (48 + m.val)).toNat < 128 := by decide
  exact hall ⟨n % 10, Nat.mod_lt _ (by omega)⟩

theorem natDigitsAux_ascii (fuel : Nat) : ∀ (n : Nat) (acc : List Char),
    acc.all (fun c => decide (c.toNat < 128)) = true →
    (natDigitsAux fuel n acc).all (fun c => decide (c.toNat < 128)) = true := by
  induction fuel with
  | zero =>
    intro n acc hacc
    simp [natDigitsAux, hacc, digitChar_ascii n]
  | succ fuel ih =>
    intro n acc hacc
    rw [natDigitsAux]
    by_cases h : n < 10
    · simp [h, hacc, digitChar_ascii n]
    · simp only [h, if_false]
      exact ih (n / 10) _ (by simp [hacc, digitChar_ascii n])

theorem allAscii_natRepr (n : Nat) : allAscii (natRepr n) = true :=
  natDigitsAux_ascii n n [] rfl

theorem allAscii_intRepr (i : Int) : allAscii (intRepr i) = true := by
  unfold intRepr
  by_cases h : i < 0
  · simp only [h, if_true]
    exact allAscii_append _ _ (by decide) (allAscii_natRepr _)
  · simpa [h] using allAscii_natRepr i.natAbs

theorem serialize_payload_ascii (a b u : Int) :
    allAscii (serializeJson (payloadJson a b u)) = true := by
  simp only [payloadJson, serializeJson, serializeList, serializeObj]
  repeat' apply allAscii_append
  all_goals first
    | exact allAscii_intRepr _
    | decide

theorem sextetIndex_sextetChar (n : Nat) (h : n < 64) :
    sextetIndex (sextetChar n) = some n := by
  have hall : ∀ m : Fin 64, sextetIndex (sextetChar m.val) = some m.val := by decide
  exact hall ⟨n, h⟩

theorem sextetChar_ne_pad (n : Nat) (h : n < 64) : sextetChar n ≠ '=' := by
  have hall : ∀ m : Fin 64, sextetChar m.val ≠ '=' := by decide
  exact hall ⟨n, h⟩

/-- Decoding inverts encoding on any byte list. -/
theorem b64decode_b64encode : ∀ (bs : List Nat), (∀ b ∈ bs, b < 256) →
    b64decode (b64encode bs) = some bs
  | [], _ => rfl
  | [b0], h => by
    have h0 : b0 < 256 := h b0 (by simp)
    have e0 := sextetIndex_sextetChar (b0 / 4) (by omega)
    have e1 := sextetIndex_sextetChar (b0 % 4 * 16) (by omega)
    simp [b64encode, b64decode, e0, e1]
    omega
  | [b0, b1], h => by
    have h0 : b0 < 256 := h b0 (by simp)
    have h1 : b1 < 256 := h b1 (by simp)
    have e0 := sextetIndex_sextetChar (b0 / 4) (by omega)
    have e1 := sextetIndex_sextetChar (b0 % 4 * 16 + b1 / 16) (by omega)
    have e2 := sextetIndex_sextetChar (b1 % 16 * 4) (by omega)
    have ne2 := sextetChar_ne_pad (b1 % 16 * 4) (by omega)
    simp [b64encode, b64decode, e0, e1, e2, ne2]
    omega
  | b0 :: b1 :: b2 :: rest, h => by
    have h0 : b0 < 256 := h b0 (by simp)
    have h1 : b1 < 256 := h b1 (by simp)
    have h2 : b2 < 256 := h b2 (by simp)
    have ih := b64decode_b64encode rest (fun x hx => h x (by simp [hx]))
    have e0 := sextetIndex_sextetChar (b0 / 4) (by omega)
    have e1 := sextetIndex_sextetChar (b0 % 4 * 16 + b1 / 16) (by omega)
    have e2 := sextetIndex_sextetChar (b1 % 16 * 4 + b2 / 64) (by omega)
    have e3 := sextetIndex_sextetChar (b2 % 64) (by omega)
    have ne2 := sextetChar_ne_pad (b1 % 16 * 4 + b2 / 64) (by omega)
    have ne3 := sextetChar_ne_pad (b2 % 64) (by omega)
    simp [b64encode, b64decode, e0, e1, e2, e3, ne2, ne3, ih]
    omega

/-- `C3`: for a channel holding a stream, the computed payload's `data`
field base64-decodes to the UTF-8 bytes of the compact JSON serialization of
a single-element list holding one "minute-watched" event record whose
properties carry the channel id, the current stream's broadcast id, the
fixed player tag and the authenticated user's id. -/
theorem payload_decodes (ch : Channel) (s : Stream) (h : ch.stream = some s) :
    ch._payload = some (mkPayload ch.id s.broadcast_id ch.user_id) ∧
    b64decode (mkPayload ch.id s.broadcast_id ch.user_id).data.data =
      some (asciiBytes (serializeJson (payloadJson ch.id s.broadcast_id ch.user_id))) ∧
    payloadJson ch.id s.broadcast_id ch.user_id =
      Json.arr [Json.obj [
        ("event", Json.str "minute-watched"),
        ("properties", Json.obj [
          ("channel_id", Json.int ch.id),
          ("broadcast_id", Json.int s.broadcast_id),
          ("player", Json.str "site"),
          ("user_id", Json.int ch.user_id)])]] := by
  refine ⟨by simp [Channel._payload, h], ?_, rfl⟩
  have hb : ∀ x ∈ asciiBytes (serializeJson (payloadJson ch.id s.broadcast_id ch.user_id)),
      x < 256 := by
    intro x hx
    rcases List.mem_map.mp hx with ⟨c, hc, rfl⟩
    have := mem_lt_of_allAscii _ (serialize_payload_ascii _ _ _) c hc
    omega
  exact b64decode_b64encode _ hb

/-- Witness for `C3` at a concrete ONLINE channel. -/
theorem payload_decodes_witness :
    chanOnline._payload = some (mkPayload 1 100 7) ∧
    b64decode (mkPayload 1 100 7).data.data =
      some (asciiBytes (serializeJson (payloadJson 1 100 7))) := by
  have h := payload_decodes chanOnline (Stream.make 100 none 5 "t" []) rfl
  exact ⟨h.1, h.2.1⟩

end TDM
